import Mathlib

/-!
Shallow embedding of `export_price_predictor.py`: a small PyTorch script that
defines `TunisianExportPredictor`, a feed-forward network 10 → 32 → 16 → 1
with ReLU activations and a dropout stage (p = 0.2) after the first
activation, then saves the raw state dict and a `torch.jit.trace` export.

Tensors are modelled as lists of rationals (a batch is a list of rows).
Dropout's stochastic mask is made explicit as a `List Bool` argument: `true`
means the unit is kept.  The `training` flag of `nn.Module` is a field of
the model, `true` at construction (PyTorch's default).
-/

/-- A one-dimensional tensor (a row of features). -/
abbrev Vec := List ℚ

/-- An affine layer, as `nn.Linear`: `weight` holds `outF` rows of length
`inF`, `bias` has length `outF`. -/
structure Linear where
  weight : List Vec
  bias : Vec
deriving Repr, DecidableEq

/-- Dot product of two rational vectors (truncating at the shorter). -/
def dot : Vec → Vec → ℚ
  | [], _ => 0
  | _, [] => 0
  | a :: as, b :: bs => a * b + dot as bs

/-- `nn.Linear` applied to one row: each output coordinate is the dot product
of a weight row with the input plus the bias. -/
def Linear.apply (l : Linear) (x : Vec) : Vec :=
  List.zipWith (fun row b => dot row x + b) l.weight l.bias

/-- Element-wise ReLU, as `nn.ReLU`. -/
def reluV (x : Vec) : Vec := x.map (fun a => max a 0)

/-- `nn.Dropout` in evaluation mode: the identity. -/
def dropoutEval (x : Vec) : Vec := x

/-- `nn.Dropout(p)` in training mode with an explicit Bernoulli mask: kept
units are rescaled by `1/(1-p)`, dropped units become `0`. -/
def dropoutTrain (p : ℚ) (mask : List Bool) (x : Vec) : Vec :=
  List.zipWith (fun keep a => if keep then a / (1 - p) else 0) mask x

/-- The dropout probability used by the source: `nn.Dropout(0.2)`. -/
def dropoutP : ℚ := 1/5

/-- The model of the script: three affine layers and the `nn.Module`
`training` flag. -/
structure TunisianExportPredictor where
  fc1 : Linear
  fc2 : Linear
  fc3 : Linear
  training : Bool
deriving Repr, DecidableEq

/-- `TunisianExportPredictor.__init__`: a module starts in training mode
(PyTorch's `nn.Module` default); the three layers carry the (random)
initial parameters, which we take as arguments. -/
def construct (w1 w2 w3 : Linear) : TunisianExportPredictor :=
  { fc1 := w1, fc2 := w2, fc3 := w3, training := true }

/-- `forward`, generalised over the dropout probability `p` (the source fixes
`p = 0.2`): `x = relu(fc1 x); x = dropout(x); x = relu(fc2 x); x = fc3 x`. -/
def forwardP (p : ℚ) (m : TunisianExportPredictor) (mask : List Bool)
    (x : Vec) : Vec :=
  let h1 := reluV (m.fc1.apply x)
  let h1d := if m.training then dropoutTrain p mask h1 else dropoutEval h1
  let h2 := reluV (m.fc2.apply h1d)
  m.fc3.apply h2

/-- `TunisianExportPredictor.forward` on one row, with the source's
`nn.Dropout(0.2)`. -/
def forward (m : TunisianExportPredictor) (mask : List Bool) (x : Vec) : Vec :=
  forwardP dropoutP m mask x

/-- `forward` on a batch: each row gets its own independent dropout mask,
indexed by its position. -/
def forwardBatch (m : TunisianExportPredictor) (masks : Nat → List Bool) :
    List Vec → List Vec
  | [] => []
  | x :: xs => forward m (masks 0) x :: forwardBatch m (fun i => masks (i + 1)) xs

/-- Shape check of `nn.Linear(inF, outF)`: `outF` weight rows of length
`inF` and an `outF`-long bias. -/
def Linear.hasShape (l : Linear) (inF outF : Nat) : Bool :=
  l.weight.length == outF && l.weight.all (fun r => r.length == inF) &&
    l.bias.length == outF

/-- The model's topology as built by `__init__`:
`nn.Linear(10, 32)`, `nn.Linear(32, 16)`, `nn.Linear(16, 1)`. -/
def wellFormed (m : TunisianExportPredictor) : Bool :=
  m.fc1.hasShape 10 32 && m.fc2.hasShape 32 16 && m.fc3.hasShape 16 1

/-- `p.numel()` summed over a layer's weight and bias. -/
def Linear.numel (l : Linear) : Nat :=
  (l.weight.map List.length).sum + l.bias.length

/-- `sum(p.numel() for p in model.parameters())`, the count the script
prints. -/
def paramCount (m : TunisianExportPredictor) : Nat :=
  m.fc1.numel + m.fc2.numel + m.fc3.numel

/-- `model.state_dict()`: the mapping from layer name to its parameters. -/
def state_dict (m : TunisianExportPredictor) : List (String × Linear) :=
  [("fc1", m.fc1), ("fc2", m.fc2), ("fc3", m.fc3)]

/-- `load_state_dict` on a freshly constructed model: every layer present in
the saved mapping replaces the fresh one; the `training` flag is untouched. -/
def load_state_dict (fresh : TunisianExportPredictor)
    (sd : List (String × Linear)) : TunisianExportPredictor :=
  { fc1 := (sd.lookup "fc1").getD fresh.fc1
    fc2 := (sd.lookup "fc2").getD fresh.fc2
    fc3 := (sd.lookup "fc3").getD fresh.fc3
    training := fresh.training }

/-- The result of `torch.jit.trace(model, example_input)`: the captured
parameters together with the `training` flag frozen at trace time (the
traced graph bakes `aten::dropout(x, 0.2, train)` with the mode that was
active when tracing ran). -/
structure Traced where
  model : TunisianExportPredictor
  traceTimeTraining : Bool
deriving Repr, DecidableEq

/-- `torch.jit.trace`: one forward pass is recorded; the dropout operator is
frozen with the module's current `training` flag. -/
def torchJitTrace (m : TunisianExportPredictor) (_exampleInput : Vec) : Traced :=
  { model := m, traceTimeTraining := m.training }

/-- Executing the loaded traced graph on an input (with an explicit dropout
mask for the stochastic dropout node, relevant only when the trace froze
training mode). -/
def runTraced (t : Traced) (mask : List Bool) (x : Vec) : Vec :=
  forward { t.model with training := t.traceTimeTraining } mask x

/-- The observable steps of the `__main__` block, in program order. -/
inductive Step where
  | saveRaw      -- torch.save(model.state_dict(), "tunisian_export_model.pth")
  | traceModel   -- torch.jit.trace(model, example_input)
  | saveTraced   -- traced_model.save("tunisian_export_model_traced.pt")
  | printDone    -- print("✅ Modèle PyTorch créé et sauvegardé")
  | printParams  -- print(f"  - Paramètres: ...")
deriving Repr, DecidableEq

/-- The script body after constructing the model, in source order. -/
def scriptSteps : List Step :=
  [Step.saveRaw, Step.traceModel, Step.saveTraced, Step.printDone,
    Step.printParams]

/-- Straight-line execution with a failure oracle: a step that fails aborts
the run (no handler anywhere, so the fault is uncaught); steps already done
stay done (no cleanup).  Returns the completed steps and whether the run
finished normally. -/
def runSteps (failsAt : Step → Bool) : List Step → List Step × Bool
  | [] => ([], true)
  | s :: rest =>
    if failsAt s then ([], false)
    else
      let r := runSteps failsAt rest
      (s :: r.1, r.2)

/-- A concrete layer whose weights are all `1` and biases all `0`, in the
given shape; used to evaluate the embedding on concrete instances. -/
def onesLinear (inF outF : Nat) : Linear :=
  { weight := List.replicate outF (List.replicate inF 1)
    bias := List.replicate outF 0 }

/-- A concrete well-formed model instance in the script's topology, in its
construction-default training mode. -/
def model0 : TunisianExportPredictor :=
  construct (onesLinear 10 32) (onesLinear 32 16) (onesLinear 16 1)

/-- The same concrete instance after `model.eval()` would have been called. -/
def model0Eval : TunisianExportPredictor := { model0 with training := false }

/-- A keep-everything dropout mask for the 32 first-layer units. -/
def maskT : List Bool := List.replicate 32 true

/-- A drop-everything dropout mask for the 32 first-layer units. -/
def maskF : List Bool := List.replicate 32 false

/-- A concrete all-ones input row of 10 features. -/
def x0 : Vec := List.replicate 10 1

/-- A concrete layer whose weights and biases are all `0`, in the given
shape; a second "freshly constructed" instance for round-trip checks. -/
def zerosLinear (inF outF : Nat) : Linear :=
  { weight := List.replicate outF (List.replicate inF 0)
    bias := List.replicate outF 0 }

/-- A second concrete well-formed model, with parameters different from
`model0`. -/
def fresh0 : TunisianExportPredictor :=
  construct (zerosLinear 10 32) (zerosLinear 32 16) (zerosLinear 16 1)

lemma length_linear_apply (l : Linear) (x : Vec) :
    (l.apply x).length = min l.weight.length l.bias.length := by
  simp [Linear.apply]

lemma length_reluV (x : Vec) : (reluV x).length = x.length := by
  simp [reluV]

lemma sum_map_length (rows : List Vec) (k : Nat)
    (h : rows.all (fun r => r.length == k) = true) :
    (rows.map List.length).sum = rows.length * k := by
  induction rows with
  | nil => simp
  | cons r rs ih =>
    simp only [List.all_cons, Bool.and_eq_true, beq_iff_eq] at h
    simp [ih h.2, h.1, Nat.succ_mul, Nat.add_comm]

lemma numel_of_hasShape (l : Linear) (inF outF : Nat)
    (h : l.hasShape inF outF = true) : l.numel = outF * inF + outF := by
  simp only [Linear.hasShape, Bool.and_eq_true, beq_iff_eq] at h
  obtain ⟨⟨hw, hrows⟩, hb⟩ := h
  simp [Linear.numel, sum_map_length l.weight inF hrows, hw, hb]

lemma length_forward (m : TunisianExportPredictor) (mask : List Bool) (x : Vec)
    (h : m.fc3.hasShape 16 1 = true) : (forward m mask x).length = 1 := by
  simp only [Linear.hasShape, Bool.and_eq_true, beq_iff_eq] at h
  simp [forward, forwardP, length_linear_apply, h.1.1, h.2]

lemma forwardBatch_length (m : TunisianExportPredictor)
    (masks : Nat → List Bool) (xs : List Vec) :
    (forwardBatch m masks xs).length = xs.length := by
  induction xs generalizing masks with
  | nil => rfl
  | cons x xs ih => simp [forwardBatch, ih]

lemma forwardBatch_rows (m : TunisianExportPredictor)
    (masks : Nat → List Bool) (xs : List Vec)
    (h : m.fc3.hasShape 16 1 = true) :
    ∀ y ∈ forwardBatch m masks xs, y.length = 1 := by
  induction xs generalizing masks with
  | nil => intro y hy; simp [forwardBatch] at hy
  | cons x xs ih =>
    intro y hy
    simp only [forwardBatch, List.mem_cons] at hy
    rcases hy with hy | hy
    · exact hy ▸ length_forward m (masks 0) x h
    · exact ih (fun i => masks (i + 1)) y hy

lemma dropoutTrain_zero (mask : List Bool) (x : Vec)
    (hall : mask.all id = true) (hlen : mask.length = x.length) :
    dropoutTrain 0 mask x = x := by
  induction mask generalizing x with
  | nil =>
    cases x with
    | nil => rfl
    | cons a as => simp at hlen
  | cons b bs ih =>
    cases x with
    | nil => simp at hlen
    | cons a as =>
      simp only [List.all_cons, Bool.and_eq_true, id] at hall
      have htail := ih as hall.2 (by simpa using hlen)
      simp [dropoutTrain, hall.1] at htail ⊢
      exact htail

/-- Claim C2: outside of training mode, `forward` computes
`fc3 (relu (fc2 (relu (fc1 x))))`: the dropout stage is the identity and no
activation follows the last layer. -/
theorem c2_eval_forward_formula (m : TunisianExportPredictor)
    (h : m.training = false) (mask : List Bool) (x : Vec) :
    forward m mask x =
      m.fc3.apply (reluV (m.fc2.apply (reluV (m.fc1.apply x)))) := by
  simp [forward, forwardP, dropoutEval, h]

/-- Witness for C2 at a concrete evaluation-mode model and input. -/
theorem c2_eval_forward_formula_witness :
    model0Eval.training = false ∧
      forward model0Eval maskT x0 =
        model0Eval.fc3.apply
          (reluV (model0Eval.fc2.apply (reluV (model0Eval.fc1.apply x0)))) :=
  ⟨rfl, c2_eval_forward_formula model0Eval rfl maskT x0⟩

/-- Claim C3: any model with the constructed topology has exactly
`(10·32+32) + (32·16+16) + (16·1+1) = 897` trainable scalars, the number the
script prints. -/
theorem c3_param_count (m : TunisianExportPredictor)
    (h : wellFormed m = true) : paramCount m = 897 := by
  simp only [wellFormed, Bool.and_eq_true] at h
  obtain ⟨⟨h1, h2⟩, h3⟩ := h
  simp [paramCount, numel_of_hasShape m.fc1 10 32 h1,
    numel_of_hasShape m.fc2 32 16 h2, numel_of_hasShape m.fc3 16 1 h3]

/-- Witness for C3 at a concrete well-formed model. -/
theorem c3_param_count_witness :
    wellFormed model0 = true ∧ paramCount model0 = 897 :=
  ⟨by decide, c3_param_count model0 (by decide)⟩

/-- Claim C4: saving `state_dict` and loading it into a freshly constructed
model of the identical topology gives a model whose output agrees with the
original on every input (exactly, in the rational model). -/
theorem c4_state_dict_round_trip (m fresh : TunisianExportPredictor)
    (h : fresh.training = m.training) (mask : List Bool) (x : Vec) :
    forward (load_state_dict fresh (state_dict m)) mask x = forward m mask x := by
  have hload : load_state_dict fresh (state_dict m) =
      { m with training := fresh.training } := by
    simp [load_state_dict, state_dict, List.lookup]
  rw [hload, h]

/-- Witness for C4: the parameters of `model0` survive the round trip into
the fresh all-zeros model. -/
theorem c4_state_dict_round_trip_witness :
    fresh0.training = model0.training ∧
      forward (load_state_dict fresh0 (state_dict model0)) maskT x0 =
        forward model0 maskT x0 :=
  ⟨rfl, c4_state_dict_round_trip model0 fresh0 rfl maskT x0⟩

/-- Claim C5: in evaluation mode `forward` is deterministic: its value does
not depend on the stochastic dropout mask, so repeated calls with the same
weights and input agree exactly. -/
theorem c5_eval_deterministic (m : TunisianExportPredictor)
    (h : m.training = false) (mask₁ mask₂ : List Bool) (x : Vec) :
    forward m mask₁ x = forward m mask₂ x := by
  simp [forward, forwardP, h]

/-- Witness for C5 with two different masks at a concrete model. -/
theorem c5_eval_deterministic_witness :
    model0Eval.training = false ∧
      forward model0Eval maskT x0 = forward model0Eval maskF x0 :=
  ⟨rfl, c5_eval_deterministic model0Eval rfl maskT maskF x0⟩

/-- Claim C6: for a model of the constructed topology, a batch of rows of
width 10 (with full-width dropout masks) is mapped to one output row of
width 1 per input row, for any batch size. -/
theorem c6_batch_shape (m : TunisianExportPredictor) (masks : Nat → List Bool)
    (xs : List Vec) (hm : wellFormed m = true)
    (hmask : ∀ i, (masks i).length = 32) (hx : ∀ x ∈ xs, x.length = 10) :
    (forwardBatch m masks xs).length = xs.length ∧
      ∀ y ∈ forwardBatch m masks xs, y.length = 1 := by
  simp only [wellFormed, Bool.and_eq_true] at hm
  exact ⟨forwardBatch_length m masks xs, forwardBatch_rows m masks xs hm.2⟩

/-- Witness for C6 on a concrete batch of one all-ones row. -/
theorem c6_batch_shape_witness :
    (forwardBatch model0 (fun _ => maskT) [x0]).length = [x0].length ∧
      ∀ y ∈ forwardBatch model0 (fun _ => maskT) [x0], y.length = 1 :=
  c6_batch_shape model0 (fun _ => maskT) [x0] (by decide) (fun _ => rfl)
    (by intro x hx; rw [List.mem_singleton] at hx; rw [hx]; rfl)

/-- Claim C1 (divergence): the script traces the model while it is still in
training mode, so the loaded traced graph runs the dropout stage as a
stochastic training-mode operator.  At a concrete parameter assignment
(all weights 1, all biases 0), input of ten ones and the keep-everything
dropout mask, the traced graph yields `[6400]` (survivors rescaled by
`1/(1-0.2)`), while the original model's evaluation-mode forward pass
yields `[5120]`: they are not equal, contradicting the claimed agreement. -/
theorem c1_traced_diverges_from_eval :
    runTraced (torchJitTrace model0 x0) maskT x0 = [6400] ∧
      forward model0Eval maskT x0 = [5120] ∧
      runTraced (torchJitTrace model0 x0) maskT x0 ≠
        forward model0Eval maskT x0 := by
  refine ⟨?_, ?_, ?_⟩
  · norm_num [runTraced, torchJitTrace, forward, forwardP, model0, construct,
      onesLinear, Linear.apply, dot, reluV, dropoutEval, dropoutTrain,
      dropoutP, maskT, x0, max_def, List.replicate]
  · norm_num [forward, forwardP, model0Eval, model0, construct, onesLinear,
      Linear.apply, dot, reluV, dropoutEval, dropoutTrain, dropoutP, maskT,
      x0, max_def, List.replicate]
  · intro hcontra
    have h1 : runTraced (torchJitTrace model0 x0) maskT x0 = [6400] := by
      norm_num [runTraced, torchJitTrace, forward, forwardP, model0,
        construct, onesLinear, Linear.apply, dot, reluV, dropoutEval,
        dropoutTrain, dropoutP, maskT, x0, max_def, List.replicate]
    have h2 : forward model0Eval maskT x0 = [5120] := by
      norm_num [forward, forwardP, model0Eval, model0, construct, onesLinear,
        Linear.apply, dot, reluV, dropoutEval, dropoutTrain, dropoutP, maskT,
        x0, max_def, List.replicate]
    rw [h1, h2] at hcontra
    norm_num at hcontra

/-- Claim C7: the training-mode forward pass is non-deterministic: two
admissible dropout masks give different outputs at the same weights and
input; and with zeroing probability 0 every admissible mask (all units
kept) gives the same output, so determinism would hold in that degenerate
case. -/
theorem c7_training_nondeterministic :
    forward model0 maskT x0 ≠ forward model0 maskF x0 ∧
      ∀ (m : TunisianExportPredictor) (mask₁ mask₂ : List Bool) (x : Vec),
        mask₁.all id = true → mask₂.all id = true →
        mask₁.length = (reluV (m.fc1.apply x)).length →
        mask₂.length = (reluV (m.fc1.apply x)).length →
        forwardP 0 m mask₁ x = forwardP 0 m mask₂ x := by
  constructor
  · intro hcontra
    have h1 : forward model0 maskT x0 = [6400] := by
      norm_num [forward, forwardP, model0, construct, onesLinear,
        Linear.apply, dot, reluV, dropoutEval, dropoutTrain, dropoutP, maskT,
        x0, max_def, List.replicate]
    have h2 : forward model0 maskF x0 = [0] := by
      norm_num [forward, forwardP, model0, construct, onesLinear,
        Linear.apply, dot, reluV, dropoutEval, dropoutTrain, dropoutP, maskF,
        x0, max_def, List.replicate]
    rw [h1, h2] at hcontra
    norm_num at hcontra
  · intro m mask₁ mask₂ x hall₁ hall₂ hlen₁ hlen₂
    by_cases ht : m.training
    · simp [forwardP, ht,
        dropoutTrain_zero mask₁ (reluV (m.fc1.apply x)) hall₁ hlen₁,
        dropoutTrain_zero mask₂ (reluV (m.fc1.apply x)) hall₂ hlen₂]
    · simp [forwardP, ht]

/-- Witness for C7's second part at a concrete model, input and mask. -/
theorem c7_training_nondeterministic_witness :
    forwardP 0 model0 maskT x0 = forwardP 0 model0 maskT x0 :=
  c7_training_nondeterministic.2 model0 maskT maskT x0 (by decide) (by decide)
    (by simp [maskT, length_reluV, length_linear_apply, model0, construct,
      onesLinear])
    (by simp [maskT, length_reluV, length_linear_apply, model0, construct,
      onesLinear])

/-- Claim C8: a model of the constructed topology, evaluated outside of
training mode on the zero batch of shape (1, 10), produces a batch of shape
(1, 1) whose single entry is a (finite) rational number. -/
theorem c8_zero_input_finite (m : TunisianExportPredictor)
    (masks : Nat → List Bool) (hm : wellFormed m = true)
    (he : m.training = false) :
    ∃ q : ℚ, forwardBatch m masks [List.replicate 10 0] = [[q]] := by
  simp only [wellFormed, Bool.and_eq_true] at hm
  have hrow : (forward m (masks 0) (List.replicate 10 0)).length = 1 :=
    length_forward m (masks 0) (List.replicate 10 0) hm.2
  obtain ⟨q, hq⟩ := List.length_eq_one.mp hrow
  exact ⟨q, by simp only [forwardBatch, hq]⟩

/-- Witness for C8 at the concrete evaluation-mode model. -/
theorem c8_zero_input_finite_witness :
    ∃ q : ℚ, forwardBatch model0Eval (fun _ => maskT) [List.replicate 10 0] =
      [[q]] :=
  c8_zero_input_finite model0Eval (fun _ => maskT) (by decide) rfl

/-- Claim C9: in the script the raw-parameter write strictly precedes the
traced-graph write; any failing step aborts the run unhandled, and a failure
at the traced-graph write leaves the raw-parameter write done, the
traced-graph write undone, and nothing afterwards executed, with no cleanup
step anywhere in the script. -/
theorem c9_write_order_and_fault :
    scriptSteps.indexOf Step.saveRaw < scriptSteps.indexOf Step.saveTraced ∧
      ∀ f : Step → Bool, f Step.saveRaw = false → f Step.traceModel = false →
        f Step.saveTraced = true →
        (runSteps f scriptSteps).2 = false ∧
          Step.saveRaw ∈ (runSteps f scriptSteps).1 ∧
          Step.saveTraced ∉ (runSteps f scriptSteps).1 ∧
          Step.printDone ∉ (runSteps f scriptSteps).1 := by
  refine ⟨by decide, ?_⟩
  intro f h1 h2 h3
  simp [runSteps, scriptSteps, h1, h2, h3]

/-- Witness for C9 with the oracle failing exactly the traced-graph write. -/
theorem c9_write_order_and_fault_witness :
    (runSteps (fun s => s == Step.saveTraced) scriptSteps).2 = false ∧
      Step.saveRaw ∈ (runSteps (fun s => s == Step.saveTraced) scriptSteps).1 ∧
      Step.saveTraced ∉ (runSteps (fun s => s == Step.saveTraced) scriptSteps).1 ∧
      Step.printDone ∉ (runSteps (fun s => s == Step.saveTraced) scriptSteps).1 :=
  c9_write_order_and_fault.2 (fun s => s == Step.saveTraced) rfl rfl rfl

/-- Claim C10: the model is constructed in training mode and the script never
switches it (no step of `scriptSteps` touches the module), so the trace
freezes training mode and the traced graph executes with the stochastic
dropout stage active (survivors rescaled by `1/(1-0.2)`), not as a no-op. -/
theorem c10_trace_in_training_mode (w1 w2 w3 : Linear) (input : Vec) :
    (construct w1 w2 w3).training = true ∧
      (torchJitTrace (construct w1 w2 w3) input).traceTimeTraining = true ∧
      ∀ (mask : List Bool) (x : Vec),
        runTraced (torchJitTrace (construct w1 w2 w3) input) mask x =
          w3.apply (reluV (w2.apply
            (dropoutTrain dropoutP mask (reluV (w1.apply x))))) := by
  refine ⟨rfl, rfl, ?_⟩
  intro mask x
  simp [runTraced, torchJitTrace, construct, forward, forwardP]
